import Mathlib

/-
Verification of the fargo cross-compilation helper (src/sdk.rs, src/cross.rs,
src/gn_deps.rs) through a shallow embedding in Lean.

Modelling conventions:
* A filesystem path is its list of components below the filesystem root, so
  the Rust path "/a/b" is ["a", "b"] and the root "/" is [].  `PathBuf::join`
  with a single component is list append, `Path::parent` drops the last
  component (and is absent at the root).
* The ambient filesystem is a total map from paths to an entry kind
  (missing / file / directory); `Path::exists` and `Path::is_dir` read it.
* Environment variables that hold paths (FUCHSIA_ROOT, HOME) are modelled as
  `Option Path`; `LDFLAGS` is an `Option String`.
* Child processes are modelled by the `Invocation` record (program, argument
  vector, environment variables set on the command) handed to an abstract
  `Spawner`, which either fails to spawn (`none`) or reports how the child
  terminated.
-/

namespace Fargo

/-- A path, as its list of components below the filesystem root. -/
abbrev Path := List String

/-- What the filesystem holds at a given path. -/
inductive Entry
  | missing
  | file
  | dir
deriving DecidableEq

/-- Rust `Path::exists`: true for any present entry, file or directory. -/
def Entry.existsFS : Entry → Bool
  | .missing => false
  | _ => true

/-- Rust `Path::is_dir`: true only for a directory. -/
def Entry.isDir : Entry → Bool
  | .dir => true
  | _ => false

/-- The ambient filesystem: a total map from paths to entry kinds. -/
def FS := Path → Entry

/-- Render a path as the string `PathBuf::to_str` produces for an absolute
path assembled from the components. -/
def pathStr (p : Path) : String :=
  "/" ++ String.intercalate "/" p

/-- The error taxonomy of the spec; each constructor corresponds to one
`bail!` / error-propagation site of the source. -/
inductive FargoError
  /-- FUCHSIA_ROOT is set but does not point at a directory
  (sdk.rs, `fuchsia_root`, first `bail!`). -/
  | configurationError (fuchsia_root_value : Path)
  /-- FUCHSIA_ROOT unset and no ancestor of the current directory has the
  target out directory (sdk.rs, `fuchsia_root`, second `bail!`). -/
  | notFoundError
  /-- `possible_target_out_dir` found no target out directory. -/
  | outDirNotFound (target_out_dir : Path)
  /-- `env::var` failed (variable unset), e.g. HOME in `cross_root`. -/
  | envVarError (name : String)
  /-- A child process could not be spawned. -/
  | processError (msg : String)
deriving DecidableEq

/-- `TargetOptions` from src/sdk.rs. -/
structure TargetOptions where
  release_os : Bool
  target_cpu : String
  target_cpu_linker : String
  device_name : Option String
deriving DecidableEq

/-- `TargetOptions::new` from src/sdk.rs: fixed x64 CPU. -/
def TargetOptions.new (release_os : Bool) (device_name : Option String) : TargetOptions :=
  { release_os := release_os
    target_cpu := "x64"
    target_cpu_linker := "x86_64"
    device_name := device_name }

/-- The out-directory name `<debug|release>-<target_cpu>` computed inside
`possible_target_out_dir` (src/sdk.rs). -/
def out_dir_name (options : TargetOptions) : String :=
  (if options.release_os then "release" else "debug") ++ "-" ++ options.target_cpu

/-- `possible_target_out_dir` from src/sdk.rs: succeed with
`<root>/out/<debug|release>-<cpu>` when that path exists (any entry kind:
the source tests `exists()`), otherwise fail. -/
def possible_target_out_dir (fs : FS) (fuchsia_root : Path) (options : TargetOptions) :
    Except FargoError Path :=
  let target_out_dir := fuchsia_root ++ ["out", out_dir_name options]
  if (fs target_out_dir).existsFS then .ok target_out_dir
  else .error (.outDirNotFound target_out_dir)

/-- Rust `Result::is_ok`. -/
def exceptIsOk : Except FargoError Path → Bool
  | .ok _ => true
  | .error _ => false

/-- The ascending-search loop of `fuchsia_root` (src/sdk.rs).  The Rust loop
repeatedly replaces `path` by `path.parent()`; here the loop runs over the
reversed component list so that taking the parent (dropping the last
component) is structural recursion on the argument.  `ascend fs options rp`
examines the path `rp.reverse`. -/
def ascend (fs : FS) (options : TargetOptions) : List String → Except FargoError Path
  | [] =>
      if exceptIsOk (possible_target_out_dir fs [] options) then .ok []
      else .error .notFoundError
  | x :: rx =>
      if exceptIsOk (possible_target_out_dir fs ((x :: rx).reverse) options) then
        .ok ((x :: rx).reverse)
      else ascend fs options rx

/-- `fuchsia_root` from src/sdk.rs.  With FUCHSIA_ROOT set, the value is
returned iff it is a directory (otherwise the configuration error);
with it unset, the ascending search starts at the current directory. -/
def fuchsia_root (fs : FS) (env_fuchsia_root : Option Path) (cwd : Path)
    (options : TargetOptions) : Except FargoError Path :=
  match env_fuchsia_root with
  | some fuchsia_root_value =>
      if (fs fuchsia_root_value).isDir then .ok fuchsia_root_value
      else .error (.configurationError fuchsia_root_value)
  | none => ascend fs options cwd.reverse

/-- The chain of ancestors of `rp.reverse` (itself first, filesystem root
last), indexed like `ascend` by the reversed component list. -/
def ancestorsRev : List String → List Path
  | [] => [[]]
  | x :: rx => (x :: rx).reverse :: ancestorsRev rx

/-- The chain of ancestors of `p`, starting at `p` itself and ending at the
filesystem root. -/
def ancestors (p : Path) : List Path :=
  ancestorsRev p.reverse

/-- `sysroot_path` from src/sdk.rs:
`<root>/out/build-zircon/<build-user-x86-64|build-user-arm64>/sysroot`,
the branch chosen by `target_cpu == "x64"`. -/
def sysroot_path (fs : FS) (env_fuchsia_root : Option Path) (cwd : Path)
    (options : TargetOptions) : Except FargoError Path :=
  let zircon_name :=
    if options.target_cpu = "x64" then "build-user-x86-64" else "build-user-arm64"
  (fuchsia_root fs env_fuchsia_root cwd options).map
    (fun root => root ++ ["out", "build-zircon", zircon_name, "sysroot"])

/-- `toolchain_path` from src/sdk.rs:
`<root>/buildtools/<mac-x64|linux-x64>/clang`.  The host test `is_mac()`
lives in the (absent) utils module; it is passed in as a boolean. -/
def toolchain_path (is_mac : Bool) (fs : FS) (env_fuchsia_root : Option Path)
    (cwd : Path) (options : TargetOptions) : Except FargoError Path :=
  let platform_name := if is_mac then "mac-x64" else "linux-x64"
  (fuchsia_root fs env_fuchsia_root cwd options).map
    (fun root => root ++ ["buildtools", platform_name, "clang"])

/-- `clang_linker_path` from src/sdk.rs: toolchain `bin/clang`. -/
def clang_linker_path (is_mac : Bool) (fs : FS) (env_fuchsia_root : Option Path)
    (cwd : Path) (options : TargetOptions) : Except FargoError Path :=
  (toolchain_path is_mac fs env_fuchsia_root cwd options).map
    (fun tc => tc ++ ["bin", "clang"])

/-- `clang_c_compiler_path` from src/sdk.rs: toolchain `bin/clang`. -/
def clang_c_compiler_path (is_mac : Bool) (fs : FS) (env_fuchsia_root : Option Path)
    (cwd : Path) (options : TargetOptions) : Except FargoError Path :=
  (toolchain_path is_mac fs env_fuchsia_root cwd options).map
    (fun tc => tc ++ ["bin", "clang"])

/-- `clang_cpp_compiler_path` from src/sdk.rs: toolchain `bin/clang++`. -/
def clang_cpp_compiler_path (is_mac : Bool) (fs : FS) (env_fuchsia_root : Option Path)
    (cwd : Path) (options : TargetOptions) : Except FargoError Path :=
  (toolchain_path is_mac fs env_fuchsia_root cwd options).map
    (fun tc => tc ++ ["bin", "clang++"])

/-- `clang_archiver_path` from src/sdk.rs: toolchain `bin/llvm-ar`. -/
def clang_archiver_path (is_mac : Bool) (fs : FS) (env_fuchsia_root : Option Path)
    (cwd : Path) (options : TargetOptions) : Except FargoError Path :=
  (toolchain_path is_mac fs env_fuchsia_root cwd options).map
    (fun tc => tc ++ ["bin", "llvm-ar"])

/-- `clang_ranlib_path` from src/sdk.rs: toolchain `bin/llvm-ranlib`. -/
def clang_ranlib_path (is_mac : Bool) (fs : FS) (env_fuchsia_root : Option Path)
    (cwd : Path) (options : TargetOptions) : Except FargoError Path :=
  (toolchain_path is_mac fs env_fuchsia_root cwd options).map
    (fun tc => tc ++ ["bin", "llvm-ranlib"])

/-- `cross_root` from src/cross.rs: `$HOME/.fargo/native_deps/<target_cpu>`;
fails when HOME is unset (`env::var("HOME")?`).  It reads nothing but HOME
and the target CPU, so it is independent of the tree root. -/
def cross_root (home : Option Path) (target_options : TargetOptions) :
    Except FargoError Path :=
  match home with
  | none => .error (.envVarError "HOME")
  | some home_value =>
      .ok (home_value ++ [".fargo", "native_deps", target_options.target_cpu])

/-- `pkg_config_path` from src/cross.rs: cross root `/lib/pkgconfig`. -/
def pkg_config_path (home : Option Path) (target_options : TargetOptions) :
    Except FargoError Path :=
  (cross_root home target_options).map (fun cr => cr ++ ["lib", "pkgconfig"])

/-- A child process invocation: program, argument vector, and the
environment variables explicitly set on the command. -/
structure Invocation where
  program : String
  args : List String
  env : List (String × String)
deriving DecidableEq

/-- How a spawned child terminated: normal exit with a status code, or
termination by a signal (where Rust `ExitStatus::code()` is `None`). -/
inductive SpawnResult
  | exited (code : Int)
  | signaled
deriving DecidableEq

/-- The process-spawning capability: `none` means the child could not be
spawned at all. -/
def Spawner := Invocation → Option SpawnResult

/-- The environment variables the cross module reads. -/
structure Env where
  fuchsia_root : Option Path
  home : Option Path
  ldflags : Option String

/-- The command `run_pkg_config` (src/cross.rs) builds for a given
package-metadata search directory: program `pkg-config`, caller
arguments, and the three isolation variables. -/
def pkgConfigCmd (args : List String) (pc : Path) : Invocation :=
  { program := "pkg-config"
    args := args
    env := [("PKG_CONFIG_PATH", ""),
            ("PKG_CONFIG_LIBDIR", pathStr pc),
            ("PKG_CONFIG_ALL_STATIC", "1")] }

/-- The command `run_pkg_config` (src/cross.rs) builds, after resolving
the package-metadata search directory. -/
def run_pkg_config_invocation (args : List String) (home : Option Path)
    (target_options : TargetOptions) : Except FargoError Invocation :=
  (pkg_config_path home target_options).map (pkgConfigCmd args)

/-- `run_pkg_config` from src/cross.rs.  A normal exit is reported as its
status code, a signaled exit as 1 (the source matches `status.code()`);
only a spawn failure is an error.  The `verbose` flag only prints. -/
def run_pkg_config (spawn : Spawner) (verbose : Bool) (args : List String)
    (home : Option Path) (target_options : TargetOptions) :
    Except FargoError Int := do
  let _ := verbose
  let cmd ← run_pkg_config_invocation args home target_options
  match spawn cmd with
  | none => .error (.processError "Unable to run pkg-config")
  | some (.exited code) => .ok code
  | some .signaled => .ok 1

/-- The command `run_configure` (src/cross.rs) builds, mirroring the source
line by line: the cross root, sysroot and toolchain lookups (in source
order), the common C flags, the linker flags extending the inherited
LDFLAGS, the `--host`/`--prefix` argument vector, and the full child
environment.  `fs::canonicalize` of the working directory is modelled as
the identity (`cwd` is taken already canonical). -/
def run_configure_invocation (use_host : Bool) (args : List String)
    (is_mac : Bool) (fs : FS) (env : Env) (cwd : Path)
    (target_options : TargetOptions) : Except FargoError Invocation := do
  let cross_root ← cross_root env.home target_options
  let cross_lib := cross_root ++ ["lib"]
  let sysroot_path ← sysroot_path fs env.fuchsia_root cwd target_options
  let toolchain_path ← toolchain_path is_mac fs env.fuchsia_root cwd target_options
  let toolchain_bin_path := toolchain_path ++ ["bin"]
  let common_c_flags :=
    "--sysroot=" ++ pathStr sysroot_path ++ " --target=x86_64-fuchsia -fPIC -I" ++
      pathStr (cross_root ++ ["include"])
  let prev_flags := env.ldflags.getD ""
  let ld_flags := prev_flags ++ " " ++ common_c_flags ++ " -L" ++ pathStr cross_lib
  let prefixArg := "--prefix=" ++ pathStr cross_root
  let configure_args :=
    (if use_host then ["--host=x86_64-fuchsia-elf"] else []) ++ [prefixArg]
  let pkg ← pkg_config_path env.home target_options
  pure
    { program := pathStr (cwd ++ ["configure"])
      args := configure_args ++ args
      env := [("CC", pathStr (toolchain_bin_path ++ ["clang"])),
              ("CXX", pathStr (toolchain_bin_path ++ ["clang++"])),
              ("RANLIB", pathStr (toolchain_bin_path ++ ["llvm-ranlib"])),
              ("LD", pathStr (toolchain_bin_path ++ ["llvm-lld"])),
              ("AR", pathStr (toolchain_bin_path ++ ["llvm-ar"])),
              ("CFLAGS", common_c_flags),
              ("CXXFLAGS", common_c_flags),
              ("CPPFLAGS", common_c_flags),
              ("LDFLAGS", ld_flags),
              ("PKG_CONFIG_PATH", ""),
              ("PKG_CONFIG_LIBDIR", pathStr pkg),
              ("PKG_CONFIG_ALL_STATIC", "1")] }

/-- `run_configure` from src/cross.rs: run the composed invocation and
report `ExitStatus::success()` (normal exit with code 0) as a boolean;
only a spawn failure is an error. -/
def run_configure (spawn : Spawner) (verbose use_host : Bool)
    (args : List String) (is_mac : Bool) (fs : FS) (env : Env) (cwd : Path)
    (target_options : TargetOptions) : Except FargoError Bool := do
  let _ := verbose
  let cmd ← run_configure_invocation use_host args is_mac fs env cwd target_options
  match spawn cmd with
  | none => .error (.processError "Unable to run configure")
  | some (.exited code) => .ok (code == 0)
  | some .signaled => .ok false

/-- A TOML value as src/gn_deps.rs distinguishes them (`toml::Value`);
datetime and float values are omitted as irrelevant to the manifest shapes
at issue — the source only distinguishes String, Table and everything
else. -/
inductive Toml
  | string (s : String)
  | integer (i : Int)
  | boolean (b : Bool)
  | array (elems : List Toml)
  | table (entries : List (String × Toml))

/-- Whether a TOML value is a plain string. -/
def Toml.isString : Toml → Bool
  | .string _ => true
  | _ => false

/-- The `Package` struct deserialized in src/gn_deps.rs. -/
structure Package where
  name : Option String

/-- The `Manifest` struct deserialized in src/gn_deps.rs. -/
structure Manifest where
  package : Option Package
  dependencies : Option Toml
  workspace : Option Toml

/-- The errors of src/gn_deps.rs; each constructor corresponds to one
failure site of `get_dependency_names`. -/
inductive GnDepsError
  /-- `toml::from_str` failed (malformed manifest syntax). -/
  | parseError
  /-- "Crate manifest had no dependencies." (`chain_err` on a missing
  dependencies field). -/
  | missingDependencies
  /-- "Crate manifest dependencies not a table". -/
  | depsNotATable
  /-- "Crate {} manifest has a non-string dependency" naming the key. -/
  | nonStringDependency (key : String)
deriving DecidableEq

/-- `HashSet::insert`, modelled on a duplicate-free list. -/
def insertDep (dep_set : List String) (key : String) : List String :=
  if key ∈ dep_set then dep_set else dep_set ++ [key]

/-- The entry loop of `get_dependency_names`: a string-valued entry inserts
its key into the set; any other value shape aborts the whole extraction
naming the key. -/
def collect_dependency_names :
    List (String × Toml) → List String → Except GnDepsError (List String)
  | [], dep_set => .ok dep_set
  | (key, value) :: rest, dep_set =>
      match value with
      | .string _ => collect_dependency_names rest (insertDep dep_set key)
      | _ => .error (.nonStringDependency key)

/-- `get_dependency_names` from src/gn_deps.rs, taking the result of the
`toml::from_str` deserialization step (the TOML text parser itself is not
embedded): propagate a parse failure, require the dependencies field, then
require a table and collect the keys of its string-valued entries. -/
def get_dependency_names (parsed : Except Unit Manifest) :
    Except GnDepsError (List String) :=
  match parsed with
  | .error _ => .error .parseError
  | .ok decoded =>
      match decoded.dependencies with
      | none => .error .missingDependencies
      | some deps =>
          match deps with
          | .table deps_table => collect_dependency_names deps_table []
          | _ => .error .depsNotATable

/-- `FuchsiaConfig` from src/sdk.rs. -/
structure FuchsiaConfig where
  fuchsia_build_dir : String
  fuchsia_variant : String
  fuchsia_arch : String
  zircon_project : String
deriving DecidableEq

/-- The initial configuration of `FuchsiaConfig::new`: four empty
strings. -/
def FuchsiaConfig.initial : FuchsiaConfig :=
  { fuchsia_build_dir := ""
    fuchsia_variant := ""
    fuchsia_arch := ""
    zircon_project := "" }

/-- Rust `str::trim_matches(c)`: strip every leading and every trailing
occurrence of the character. -/
def trimMatches (c : Char) (s : String) : String :=
  (((s.toList.dropWhile (· == c)).reverse.dropWhile (· == c)).reverse).asString

/-- Splitting a character list at every occurrence of a separator
character: the semantics of Rust `str::split` with a one-character
pattern, on the list of characters.  Splitting the empty list yields one
empty piece, as in Rust. -/
def splitChar (c : Char) : List Char → List (List Char)
  | [] => [[]]
  | x :: xs =>
      let rest := splitChar c xs
      if x == c then [] :: rest
      else
        match rest with
        | [] => [[x]]
        | piece :: pieces => (x :: piece) :: pieces

/-- The pieces of a line around every `=`, as strings: Rust
`one_line.split("=").collect::<Vec<&str>>()`. -/
def lineParts (one_line : String) : List String :=
  (splitChar '=' one_line.toList).map List.asString

/-- Rust `str::lines`: split on newline characters, drop a final empty
piece produced by a trailing newline, and strip the carriage return that
ends a piece followed by a newline. -/
def rustLines (s : String) : List String :=
  let stripCR := fun (l : List Char) =>
    if l.getLast? = some '\r' then l.dropLast else l
  match (splitChar '\n' s.toList).reverse with
  | [] => []
  | last :: revInit =>
      let initLines := (revInit.map stripCR).reverse
      (if last = [] then initLines else initLines ++ [last]).map List.asString

/-- One iteration of the line loop in `FuchsiaConfig::new` (src/sdk.rs):
split the line on every `=` (Rust `split("=").collect()`), and only when
that yields exactly two parts match the first part — untrimmed — against
the four known keys, assigning the second part with all surrounding `"`
characters stripped; everything else leaves the configuration unchanged.
The Rust `match parts[0]` over four literal keys is written as the
equivalent chain of equality tests. -/
def parse_config_line (config : FuchsiaConfig) (one_line : String) : FuchsiaConfig :=
  match lineParts one_line with
  | [key, value] =>
      if key = "FUCHSIA_BUILD_DIR" then
        { config with fuchsia_build_dir := trimMatches '"' value }
      else if key = "FUCHSIA_VARIANT" then
        { config with fuchsia_variant := trimMatches '"' value }
      else if key = "FUCHSIA_ARCH" then
        { config with fuchsia_arch := trimMatches '"' value }
      else if key = "ZIRCON_PROJECT" then
        { config with zircon_project := trimMatches '"' value }
      else config
  | _ => config

/-- `FuchsiaConfig::new` from src/sdk.rs, taking the contents of the
`.config` file (locating the tree root and reading the file are I/O steps
outside this embedding): fold the line parser over the file's lines.
Parsing itself is total — no line can fail it. -/
def FuchsiaConfig.new (config_file_contents_str : String) : FuchsiaConfig :=
  (rustLines config_file_contents_str).foldl parse_config_line FuchsiaConfig.initial

/-- A debug-mode x64 target: `TargetOptions::new(false, None)`. -/
def optsDebug : TargetOptions := TargetOptions.new false none

/-- A demonstration filesystem: a tree root at `/r` with a debug-x64 out
directory and a zircon sysroot. -/
def fsDemo : FS := fun p =>
  if p = ["r"] then .dir
  else if p = ["r", "out", "debug-x64"] then .dir
  else if p = ["r", "out", "build-zircon", "build-user-x86-64", "sysroot"] then .dir
  else .missing

/-- A demonstration environment: FUCHSIA_ROOT at `/r`, HOME at `/h`. -/
def envDemo : Env :=
  { fuchsia_root := some ["r"], home := some ["h"], ldflags := none }

/-- A demonstration filesystem where `/a/b/out/debug-x64` exists as a
regular file while `/a/out/debug-x64` is a directory. -/
def fsFileOut : FS := fun p =>
  if p = ["a", "b"] then .dir
  else if p = ["a", "b", "out", "debug-x64"] then .file
  else if p = ["a", "out", "debug-x64"] then .dir
  else .missing

/-- A demonstration spawner whose children always exit normally with
status 7. -/
def spawnExit7 : Spawner := fun _ => some (.exited 7)

/- ------------------------------------------------------------------ -/
/- Theorems                                                            -/
/- ------------------------------------------------------------------ -/

/-- `Result::is_ok` of `possible_target_out_dir` is the existence test of
`<root>/out/<debug|release>-<cpu>`. -/
theorem exceptIsOk_possible (fs : FS) (p : Path) (options : TargetOptions) :
    exceptIsOk (possible_target_out_dir fs p options) =
      (fs (p ++ ["out", out_dir_name options])).existsFS := by
  cases hfs : (fs (p ++ ["out", out_dir_name options])).existsFS <;>
    simp [possible_target_out_dir, exceptIsOk, hfs]

/-- The ascending loop returns the first entry of the ancestor chain that
passes `possible_target_out_dir`, or the not-found error. -/
theorem ascend_eq_find (fs : FS) (options : TargetOptions) : ∀ rp : List String,
    ascend fs options rp =
      (match (ancestorsRev rp).find?
          (fun q => exceptIsOk (possible_target_out_dir fs q options)) with
        | some q => Except.ok q
        | none => Except.error FargoError.notFoundError) := by
  intro rp
  induction rp with
  | nil =>
      cases h : exceptIsOk (possible_target_out_dir fs [] options) <;>
        simp [ascend, ancestorsRev, List.find?, h]
  | cons x rx ih =>
      simp only [ascend, ancestorsRev, List.find?, List.reverse_cons]
      cases h : exceptIsOk (possible_target_out_dir fs (rx.reverse ++ [x]) options) <;>
        simp [h, ih]

/-- C1 (amended): with the tree-root override unset, `fuchsia_root` returns
the nearest ancestor of the starting directory (the starting directory
itself first) whose child path `out/<debug|release>-<targetCpu>` exists —
as any kind of filesystem entry, directory or not, since the source tests
`exists()` rather than `is_dir()` — with the prefix `release` chosen
exactly when `release_os` is true; if no ancestor up to the filesystem
root qualifies, it fails with the not-found error. -/
theorem fuchsia_root_nearest_existing (fs : FS) (cwd : Path) (options : TargetOptions) :
    fuchsia_root fs none cwd options =
      (match (ancestors cwd).find?
          (fun q => (fs (q ++ ["out",
            (if options.release_os then "release" else "debug") ++ "-" ++
              options.target_cpu])).existsFS) with
        | some q => Except.ok q
        | none => Except.error FargoError.notFoundError) := by
  have hpred : (fun q => exceptIsOk (possible_target_out_dir fs q options)) =
      (fun q => (fs (q ++ ["out",
        (if options.release_os then "release" else "debug") ++ "-" ++
          options.target_cpu])).existsFS) := by
    funext q
    rw [exceptIsOk_possible]
    rfl
  show ascend fs options cwd.reverse = _
  rw [ascend_eq_find, hpred]
  rfl

/-- C1 counterexample: starting at `/a/b` where `/a/b/out/debug-x64`
exists as a regular file (not a directory) while the ancestor `/a` has
`/a/out/debug-x64` as a directory, the search returns `/a/b` — a
candidate whose test path is not a directory — instead of the ancestor
`/a` that the claim's exists-as-a-directory test selects. -/
theorem fuchsia_root_accepts_file_out_dir :
    fuchsia_root fsFileOut none ["a", "b"] optsDebug = .ok ["a", "b"] ∧
    (fsFileOut (["a", "b"] ++ ["out", "debug-x64"])).isDir = false ∧
    (fsFileOut (["a"] ++ ["out", "debug-x64"])).isDir = true ∧
    (["a", "b"] : Path) ≠ ["a"] := by
  exact ⟨rfl, rfl, rfl, by decide⟩

/-- C2: with the tree-root override set, `fuchsia_root` returns the
override path exactly when it is a directory — regardless of the rest of
the filesystem and of the working directory, so no ascending search and no
validation of build output happens — and otherwise fails with the
configuration error, even if an ancestor of the working directory would
have qualified. -/
theorem fuchsia_root_override (fs : FS) (override_value : Path) (cwd : Path)
    (options : TargetOptions) :
    fuchsia_root fs (some override_value) cwd options =
      (if (fs override_value).isDir then Except.ok override_value
       else Except.error (FargoError.configurationError override_value)) := rfl

/-- C3: whenever the tree root resolves to `root`, the sysroot is
`root/out/build-zircon/<build-user-x86-64|build-user-arm64>/sysroot` with
the branch chosen by `target_cpu == "x64"`; the native-dependency root is
`$HOME/.fargo/native_deps/<target_cpu>`, mentioning neither the filesystem
nor the resolved root; and the package-metadata search directory is the
native-dependency root joined with `lib/pkgconfig`. -/
theorem derived_paths_from_root (fs : FS) (env_fuchsia_root : Option Path)
    (home : Path) (cwd : Path) (options : TargetOptions) (root : Path)
    (hroot : fuchsia_root fs env_fuchsia_root cwd options = .ok root) :
    sysroot_path fs env_fuchsia_root cwd options =
      .ok (root ++ ["out", "build-zircon",
        (if options.target_cpu = "x64" then "build-user-x86-64" else "build-user-arm64"),
        "sysroot"]) ∧
    cross_root (some home) options =
      .ok (home ++ [".fargo", "native_deps", options.target_cpu]) ∧
    pkg_config_path (some home) options =
      .ok (home ++ [".fargo", "native_deps", options.target_cpu, "lib", "pkgconfig"]) := by
  refine ⟨?_, rfl, ?_⟩
  · simp [sysroot_path, hroot, Except.map]
  · simp [pkg_config_path, cross_root, Except.map]

/-- Appending preserves the character list of a string. -/
theorem string_data_append (s t : String) : (s ++ t).data = s.data ++ t.data := by
  cases s; cases t; rfl

/-- The host-triple flag never coincides with a prefix flag, whatever the
native-dependency root renders to. -/
theorem host_flag_ne_prefix_flag (x : String) :
    "--host=x86_64-fuchsia-elf" ≠ "--prefix=" ++ x := by
  intro h
  have hd := congrArg (fun s : String => s.data.take 3) h
  simp only [string_data_append] at hd
  rw [List.take_append_of_le_length (by decide)] at hd
  exact absurd hd (by decide)

/-- The full characterization of the command `run_configure` composes,
given the resolved cross root, sysroot and toolchain path. -/
theorem run_configure_invocation_eq (use_host : Bool) (args : List String)
    (is_mac : Bool) (fs : FS) (env : Env) (cwd : Path)
    (options : TargetOptions) (cr sr tc : Path)
    (hcr : cross_root env.home options = .ok cr)
    (hsr : sysroot_path fs env.fuchsia_root cwd options = .ok sr)
    (htc : toolchain_path is_mac fs env.fuchsia_root cwd options = .ok tc) :
    run_configure_invocation use_host args is_mac fs env cwd options = .ok
      { program := pathStr (cwd ++ ["configure"])
        args := (if use_host then ["--host=x86_64-fuchsia-elf"] else []) ++
          ("--prefix=" ++ pathStr cr) :: args
        env := [("CC", pathStr (tc ++ ["bin", "clang"])),
                ("CXX", pathStr (tc ++ ["bin", "clang++"])),
                ("RANLIB", pathStr (tc ++ ["bin", "llvm-ranlib"])),
                ("LD", pathStr (tc ++ ["bin", "llvm-lld"])),
                ("AR", pathStr (tc ++ ["bin", "llvm-ar"])),
                ("CFLAGS", "--sysroot=" ++ pathStr sr ++
                  " --target=x86_64-fuchsia -fPIC -I" ++ pathStr (cr ++ ["include"])),
                ("CXXFLAGS", "--sysroot=" ++ pathStr sr ++
                  " --target=x86_64-fuchsia -fPIC -I" ++ pathStr (cr ++ ["include"])),
                ("CPPFLAGS", "--sysroot=" ++ pathStr sr ++
                  " --target=x86_64-fuchsia -fPIC -I" ++ pathStr (cr ++ ["include"])),
                ("LDFLAGS", env.ldflags.getD "" ++ " " ++ ("--sysroot=" ++ pathStr sr ++
                  " --target=x86_64-fuchsia -fPIC -I" ++ pathStr (cr ++ ["include"])) ++
                  " -L" ++ pathStr (cr ++ ["lib"])),
                ("PKG_CONFIG_PATH", ""),
                ("PKG_CONFIG_LIBDIR", pathStr (cr ++ ["lib", "pkgconfig"])),
                ("PKG_CONFIG_ALL_STATIC", "1")] } := by
  have hpkg : pkg_config_path env.home options = .ok (cr ++ ["lib", "pkgconfig"]) := by
    simp [pkg_config_path, hcr, Except.map]
  simp [run_configure_invocation, hcr, hsr, htc, hpkg, Except.map, Bind.bind, Except.bind,
    pure, Except.pure]

/-- C4: given the resolved sysroot and native-dependency (cross) root, the
composed C/C++ flag string is
`--sysroot=<sysroot> --target=x86_64-fuchsia -fPIC -I<cross root>/include`
and is the value of CFLAGS, CXXFLAGS and CPPFLAGS; LDFLAGS is the
inherited LDFLAGS value (empty when unset) followed by the same common
flags and `-L<cross root>/lib`; and `--host=x86_64-fuchsia-elf` appears in
the argument vector exactly when `use_host` is true, directly preceding
the always-present `--prefix=<cross root>` argument (assuming the caller
did not smuggle the host flag into its own arguments). -/
theorem run_configure_flag_composition (use_host : Bool) (args : List String)
    (is_mac : Bool) (fs : FS) (env : Env) (cwd : Path)
    (options : TargetOptions) (cr sr tc : Path)
    (hcr : cross_root env.home options = .ok cr)
    (hsr : sysroot_path fs env.fuchsia_root cwd options = .ok sr)
    (htc : toolchain_path is_mac fs env.fuchsia_root cwd options = .ok tc)
    (hargs : "--host=x86_64-fuchsia-elf" ∉ args) :
    ∃ inv, run_configure_invocation use_host args is_mac fs env cwd options = .ok inv ∧
      ((inv.env.lookup "CFLAGS" = some ("--sysroot=" ++ pathStr sr ++
          " --target=x86_64-fuchsia -fPIC -I" ++ pathStr (cr ++ ["include"]))) ∧
       (inv.env.lookup "CXXFLAGS" = inv.env.lookup "CFLAGS") ∧
       (inv.env.lookup "CPPFLAGS" = inv.env.lookup "CFLAGS") ∧
       (inv.env.lookup "LDFLAGS" = some (env.ldflags.getD "" ++ " " ++
          ("--sysroot=" ++ pathStr sr ++ " --target=x86_64-fuchsia -fPIC -I" ++
            pathStr (cr ++ ["include"])) ++ " -L" ++ pathStr (cr ++ ["lib"]))) ∧
       (inv.args = (if use_host then ["--host=x86_64-fuchsia-elf"] else []) ++
          ("--prefix=" ++ pathStr cr) :: args) ∧
       (("--host=x86_64-fuchsia-elf" ∈ inv.args) ↔ use_host = true)) := by
  refine ⟨_, run_configure_invocation_eq use_host args is_mac fs env cwd options cr sr tc
    hcr hsr htc, ?_, ?_, ?_, ?_, rfl, ?_⟩
  · simp [List.lookup]
  · simp [List.lookup]
  · simp [List.lookup]
  · simp [List.lookup]
  · cases use_host <;> simp
    exact ⟨host_flag_ne_prefix_flag (pathStr cr), hargs⟩

/-- C4 witness: the composed flags at the demonstration tree `/r`, HOME
`/h`, empty caller arguments and the host triple requested. -/
theorem run_configure_flag_composition_witness :
    cross_root envDemo.home optsDebug = .ok ["h", ".fargo", "native_deps", "x64"] ∧
    sysroot_path fsDemo envDemo.fuchsia_root [] optsDebug =
      .ok ["r", "out", "build-zircon", "build-user-x86-64", "sysroot"] ∧
    toolchain_path false fsDemo envDemo.fuchsia_root [] optsDebug =
      .ok ["r", "buildtools", "linux-x64", "clang"] ∧
    (∃ inv, run_configure_invocation true [] false fsDemo envDemo [] optsDebug = .ok inv ∧
      ((inv.env.lookup "CFLAGS" = some ("--sysroot=" ++
          pathStr ["r", "out", "build-zircon", "build-user-x86-64", "sysroot"] ++
          " --target=x86_64-fuchsia -fPIC -I" ++
          pathStr ["h", ".fargo", "native_deps", "x64", "include"])) ∧
       (inv.env.lookup "CXXFLAGS" = inv.env.lookup "CFLAGS") ∧
       (inv.env.lookup "CPPFLAGS" = inv.env.lookup "CFLAGS") ∧
       (inv.env.lookup "LDFLAGS" = some (envDemo.ldflags.getD "" ++ " " ++
          ("--sysroot=" ++ pathStr ["r", "out", "build-zircon", "build-user-x86-64", "sysroot"] ++
            " --target=x86_64-fuchsia -fPIC -I" ++
            pathStr ["h", ".fargo", "native_deps", "x64", "include"]) ++ " -L" ++
          pathStr ["h", ".fargo", "native_deps", "x64", "lib"])) ∧
       (inv.args = (if true then ["--host=x86_64-fuchsia-elf"] else []) ++
          ("--prefix=" ++ pathStr ["h", ".fargo", "native_deps", "x64"]) :: []) ∧
       (("--host=x86_64-fuchsia-elf" ∈ inv.args) ↔ (true : Bool) = true))) := by
  refine ⟨rfl, rfl, rfl, ?_⟩
  exact run_configure_flag_composition true [] false fsDemo envDemo [] optsDebug
    ["h", ".fargo", "native_deps", "x64"]
    ["r", "out", "build-zircon", "build-user-x86-64", "sysroot"]
    ["r", "buildtools", "linux-x64", "clang"] rfl rfl rfl (by simp)

/-- C5 counterexample: at a concrete tree (`/r`, linux host, debug x64),
`run_configure` sets LD to the toolchain `bin/llvm-lld` binary while the
Path Deriver's `clang_linker_path` is the toolchain `bin/clang` binary —
two different paths, so LD does not equal the Path Deriver's linker. -/
theorem run_configure_ld_not_linker_path :
    (run_configure_invocation false [] false fsDemo envDemo [] optsDebug).map
        (fun inv => inv.env.lookup "LD") =
      .ok (some "/r/buildtools/linux-x64/clang/bin/llvm-lld") ∧
    clang_linker_path false fsDemo envDemo.fuchsia_root [] optsDebug =
      .ok ["r", "buildtools", "linux-x64", "clang", "bin", "clang"] ∧
    pathStr ["r", "buildtools", "linux-x64", "clang", "bin", "clang"] =
      "/r/buildtools/linux-x64/clang/bin/clang" ∧
    ("/r/buildtools/linux-x64/clang/bin/llvm-lld" : String) ≠
      "/r/buildtools/linux-x64/clang/bin/clang" := by
  exact ⟨rfl, rfl, rfl, by decide⟩

/-- C5 (amended): CC, CXX, RANLIB and AR equal the Path Deriver's
compiler, C++ compiler, ranlib and archiver binary paths; LD, however, is
set to the toolchain `bin/llvm-lld` binary, which is a different path from
the Path Deriver's linker path (`clang_linker_path`, toolchain
`bin/clang`). -/
theorem run_configure_toolchain_env (use_host : Bool) (args : List String)
    (is_mac : Bool) (fs : FS) (env : Env) (cwd : Path)
    (options : TargetOptions) (cr sr tc : Path)
    (hcr : cross_root env.home options = .ok cr)
    (hsr : sysroot_path fs env.fuchsia_root cwd options = .ok sr)
    (htc : toolchain_path is_mac fs env.fuchsia_root cwd options = .ok tc) :
    ∃ inv, run_configure_invocation use_host args is_mac fs env cwd options = .ok inv ∧
      (inv.env.lookup "CC" = some (pathStr (tc ++ ["bin", "clang"])) ∧
        clang_c_compiler_path is_mac fs env.fuchsia_root cwd options =
          .ok (tc ++ ["bin", "clang"])) ∧
      (inv.env.lookup "CXX" = some (pathStr (tc ++ ["bin", "clang++"])) ∧
        clang_cpp_compiler_path is_mac fs env.fuchsia_root cwd options =
          .ok (tc ++ ["bin", "clang++"])) ∧
      (inv.env.lookup "RANLIB" = some (pathStr (tc ++ ["bin", "llvm-ranlib"])) ∧
        clang_ranlib_path is_mac fs env.fuchsia_root cwd options =
          .ok (tc ++ ["bin", "llvm-ranlib"])) ∧
      (inv.env.lookup "AR" = some (pathStr (tc ++ ["bin", "llvm-ar"])) ∧
        clang_archiver_path is_mac fs env.fuchsia_root cwd options =
          .ok (tc ++ ["bin", "llvm-ar"])) ∧
      (inv.env.lookup "LD" = some (pathStr (tc ++ ["bin", "llvm-lld"])) ∧
        clang_linker_path is_mac fs env.fuchsia_root cwd options =
          .ok (tc ++ ["bin", "clang"]) ∧
        (tc ++ ["bin", "llvm-lld"] : Path) ≠ tc ++ ["bin", "clang"]) := by
  refine ⟨_, run_configure_invocation_eq use_host args is_mac fs env cwd options cr sr tc
    hcr hsr htc, ⟨?_, ?_⟩, ⟨?_, ?_⟩, ⟨?_, ?_⟩, ⟨?_, ?_⟩, ⟨?_, ?_, ?_⟩⟩
  · simp [List.lookup]
  · simp [clang_c_compiler_path, htc, Except.map]
  · simp [List.lookup]
  · simp [clang_cpp_compiler_path, htc, Except.map]
  · simp [List.lookup]
  · simp [clang_ranlib_path, htc, Except.map]
  · simp [List.lookup]
  · simp [clang_archiver_path, htc, Except.map]
  · simp [List.lookup]
  · simp [clang_linker_path, htc, Except.map]
  · simp

/-- C5 witness: at the demonstration tree the amended claim instantiates:
LD is the toolchain llvm-lld, the Path Deriver's linker is the toolchain
clang. -/
theorem run_configure_toolchain_env_witness :
    toolchain_path false fsDemo envDemo.fuchsia_root [] optsDebug =
      .ok ["r", "buildtools", "linux-x64", "clang"] ∧
    ∃ inv, run_configure_invocation false [] false fsDemo envDemo [] optsDebug = .ok inv ∧
      inv.env.lookup "LD" =
        some (pathStr (["r", "buildtools", "linux-x64", "clang"] ++ ["bin", "llvm-lld"])) ∧
      clang_linker_path false fsDemo envDemo.fuchsia_root [] optsDebug =
        .ok (["r", "buildtools", "linux-x64", "clang"] ++ ["bin", "clang"]) := by
  refine ⟨rfl, ?_⟩
  obtain ⟨inv, hinv, _, _, _, _, hld⟩ := run_configure_toolchain_env false [] false fsDemo
    envDemo [] optsDebug ["h", ".fargo", "native_deps", "x64"]
    ["r", "out", "build-zircon", "build-user-x86-64", "sysroot"]
    ["r", "buildtools", "linux-x64", "clang"] rfl rfl rfl
  exact ⟨inv, hinv, hld.1, hld.2.1⟩

/-- C6: `run_pkg_config` sets `PKG_CONFIG_PATH` to the empty string,
`PKG_CONFIG_LIBDIR` to the package-metadata search directory and
`PKG_CONFIG_ALL_STATIC` to "1" on the child; a normal child exit is
returned as its status code, a signal-terminated child as 1; and the
operation errors exactly when the child cannot be spawned at all — a
non-zero exit code is not an error. -/
theorem run_pkg_config_behaviour (spawn : Spawner) (verbose : Bool)
    (args : List String) (home : Option Path) (options : TargetOptions) (pc : Path)
    (hpc : pkg_config_path home options = .ok pc) :
    ∃ cmd, run_pkg_config_invocation args home options = .ok cmd ∧
      cmd.env.lookup "PKG_CONFIG_PATH" = some "" ∧
      cmd.env.lookup "PKG_CONFIG_LIBDIR" = some (pathStr pc) ∧
      cmd.env.lookup "PKG_CONFIG_ALL_STATIC" = some "1" ∧
      cmd.args = args ∧
      (∀ code, spawn cmd = some (.exited code) →
        run_pkg_config spawn verbose args home options = .ok code) ∧
      (spawn cmd = some .signaled →
        run_pkg_config spawn verbose args home options = .ok 1) ∧
      (∀ e, run_pkg_config spawn verbose args home options = .error e ↔
        (spawn cmd = none ∧ e = .processError "Unable to run pkg-config")) := by
  have hinv : run_pkg_config_invocation args home options = .ok (pkgConfigCmd args pc) := by
    simp [run_pkg_config_invocation, hpc, Except.map]
  have hrun : run_pkg_config spawn verbose args home options =
      (match spawn (pkgConfigCmd args pc) with
        | none => Except.error (FargoError.processError "Unable to run pkg-config")
        | some (.exited code) => Except.ok code
        | some .signaled => Except.ok 1) := by
    simp [run_pkg_config, hinv, Bind.bind, Except.bind]
  refine ⟨_, hinv, ?_, ?_, ?_, rfl, ?_, ?_, ?_⟩
  · simp [List.lookup, pkgConfigCmd]
  · simp [List.lookup, pkgConfigCmd]
  · simp [List.lookup, pkgConfigCmd]
  · intro code hsp
    rw [hrun, hsp]
  · intro hsp
    rw [hrun, hsp]
  · intro e
    rw [hrun]
    cases hsp : spawn (pkgConfigCmd args pc) with
    | none => simp [eq_comm]
    | some sr => cases sr <;> simp

/-- C6 witness: with HOME `/h` and a child that exits with status 7,
`run_pkg_config` returns 7 and does not error. -/
theorem run_pkg_config_behaviour_witness :
    pkg_config_path (some ["h"]) optsDebug =
      .ok ["h", ".fargo", "native_deps", "x64", "lib", "pkgconfig"] ∧
    ∃ cmd, run_pkg_config_invocation ["--libs", "foo"] (some ["h"]) optsDebug = .ok cmd ∧
      cmd.env.lookup "PKG_CONFIG_LIBDIR" =
        some (pathStr ["h", ".fargo", "native_deps", "x64", "lib", "pkgconfig"]) ∧
      run_pkg_config spawnExit7 false ["--libs", "foo"] (some ["h"]) optsDebug = .ok 7 := by
  refine ⟨rfl, ?_⟩
  obtain ⟨cmd, hinv, _, hlib, _, _, hexit, _, _⟩ := run_pkg_config_behaviour spawnExit7 false
    ["--libs", "foo"] (some ["h"]) optsDebug
    ["h", ".fargo", "native_deps", "x64", "lib", "pkgconfig"] rfl
  exact ⟨cmd, hinv, hlib, hexit 7 rfl⟩

/-- C10: with HOME unset, `cross_root` fails with the env-var error, and
both `run_pkg_config` and `run_configure` fail with that same error for
every spawner — the result never consults the spawner, so no child process
is spawned. -/
theorem home_unset_fails_before_spawn (options : TargetOptions) :
    cross_root none options = .error (.envVarError "HOME") ∧
    (∀ (spawn : Spawner) (verbose : Bool) (args : List String),
      run_pkg_config spawn verbose args none options = .error (.envVarError "HOME")) ∧
    (∀ (spawn : Spawner) (verbose use_host : Bool) (args : List String) (is_mac : Bool)
        (fs : FS) (env_fuchsia_root : Option Path) (ldflags : Option String) (cwd : Path),
      run_configure spawn verbose use_host args is_mac fs
          { fuchsia_root := env_fuchsia_root, home := none, ldflags := ldflags } cwd options =
        .error (.envVarError "HOME")) := by
  refine ⟨rfl, ?_, ?_⟩
  · intro spawn verbose args
    simp [run_pkg_config, run_pkg_config_invocation, pkg_config_path, cross_root,
      Except.map, Bind.bind, Except.bind]
  · intro spawn verbose use_host args is_mac fs env_fuchsia_root ldflags cwd
    simp [run_configure, run_configure_invocation, cross_root, Bind.bind, Except.bind]

/-- When every entry value is a plain string, the entry loop folds the
set-insertion over the keys and succeeds. -/
theorem collect_dependency_names_all_strings (entries : List (String × Toml)) :
    ∀ dep_set, entries.all (fun kv => kv.2.isString) = true →
      collect_dependency_names entries dep_set =
        .ok (entries.foldl (fun acc kv => insertDep acc kv.1) dep_set) := by
  induction entries with
  | nil => intro dep_set _; rfl
  | cons kv rest ih =>
      intro dep_set h
      obtain ⟨k, v⟩ := kv
      rw [List.all_cons, Bool.and_eq_true] at h
      obtain ⟨h1, h2⟩ := h
      cases v <;> simp only [Toml.isString, Bool.false_eq_true] at h1
      exact ih (insertDep dep_set k) h2

/-- Inserting pairwise-distinct fresh keys one by one appends them. -/
theorem foldl_insertDep (keys : List String) :
    ∀ acc, keys.Nodup → (∀ k ∈ keys, k ∉ acc) →
      keys.foldl insertDep acc = acc ++ keys := by
  induction keys with
  | nil => intro acc _ _; simp
  | cons k rest ih =>
      intro acc hnd hdisj
      rw [List.nodup_cons] at hnd
      have hk : k ∉ acc := hdisj k (by simp)
      have hstep : insertDep acc k = acc ++ [k] := by simp [insertDep, hk]
      rw [List.foldl_cons, hstep, ih (acc ++ [k]) hnd.2 ?_]
      · simp
      · intro k' hk'
        simp only [List.mem_append, List.mem_singleton]
        rintro (hin | hin)
        · exact hdisj k' (by simp [hk']) hin
        · exact hnd.1 (hin ▸ hk')

/-- C7: on a parsed manifest whose dependency table has string-valued
entries under pairwise-distinct keys (as TOML tables guarantee),
`get_dependency_names` succeeds with exactly the table's key list — as
many distinct names as entries. -/
theorem get_dependency_names_keys (pkg : Option Package) (ws : Option Toml)
    (entries : List (String × Toml))
    (hstr : entries.all (fun kv => kv.2.isString) = true)
    (hnd : (entries.map Prod.fst).Nodup) :
    get_dependency_names (.ok ⟨pkg, some (.table entries), ws⟩) =
        .ok (entries.map Prod.fst) ∧
      (entries.map Prod.fst).length = entries.length ∧
      (entries.map Prod.fst).Nodup := by
  refine ⟨?_, by simp, hnd⟩
  simp only [get_dependency_names]
  rw [collect_dependency_names_all_strings entries [] hstr]
  congr 1
  have hmap : entries.foldl (fun acc kv => insertDep acc kv.1) [] =
      (entries.map Prod.fst).foldl insertDep [] := by
    rw [List.foldl_map]
  rw [hmap]
  exact foldl_insertDep (entries.map Prod.fst) [] hnd (by simp)

/-- C7 witness: the spec's example — fdio, fidl, futures at string
versions — yields exactly those three names. -/
theorem get_dependency_names_keys_witness :
    ([("fdio", Toml.string "0.2.0"), ("fidl", Toml.string "0.1.0"),
        ("futures", Toml.string "0.1.15")].all (fun kv => kv.2.isString) = true) ∧
    get_dependency_names (.ok ⟨none, some (.table
        [("fdio", Toml.string "0.2.0"), ("fidl", Toml.string "0.1.0"),
          ("futures", Toml.string "0.1.15")]), none⟩) =
      .ok ["fdio", "fidl", "futures"] ∧
    (["fdio", "fidl", "futures"] : List String).length = 3 := by
  have h := get_dependency_names_keys none none
    [("fdio", Toml.string "0.2.0"), ("fidl", Toml.string "0.1.0"),
      ("futures", Toml.string "0.1.15")] rfl (by decide)
  exact ⟨rfl, h.1, rfl⟩

/-- A string-valued prefix is consumed, and the first non-string entry
aborts the loop naming its key. -/
theorem collect_dependency_names_first_offender (pre : List (String × Toml)) :
    ∀ dep_set (k : String) (v : Toml) (post : List (String × Toml)),
      pre.all (fun kv => kv.2.isString) = true → v.isString = false →
      collect_dependency_names (pre ++ (k, v) :: post) dep_set =
        .error (.nonStringDependency k) := by
  induction pre with
  | nil =>
      intro dep_set k v post _ hv
      cases v <;> simp [Toml.isString] at hv <;> rfl
  | cons kv rest ih =>
      intro dep_set k v post hpre hv
      obtain ⟨k0, v0⟩ := kv
      rw [List.all_cons, Bool.and_eq_true] at hpre
      obtain ⟨hpre1, hpre2⟩ := hpre
      cases v0 <;> simp only [Toml.isString, Bool.false_eq_true] at hpre1
      exact ih (insertDep dep_set k0) k v post hpre2 hv

/-- C8: the extraction is all-or-nothing — a failed parse gives the parse
error, a missing dependency table the missing-section error, and a first
non-string entry value the schema error naming that entry's key; every
failure is a bare error value carrying no partial dependency set. -/
theorem get_dependency_names_all_or_nothing :
    (get_dependency_names (.error ()) = .error .parseError) ∧
    (∀ (pkg : Option Package) (ws : Option Toml),
      get_dependency_names (.ok ⟨pkg, none, ws⟩) = .error .missingDependencies) ∧
    (∀ (pkg : Option Package) (ws : Option Toml) (pre : List (String × Toml))
        (k : String) (v : Toml) (post : List (String × Toml)),
      pre.all (fun kv => kv.2.isString) = true → v.isString = false →
        get_dependency_names (.ok ⟨pkg, some (.table (pre ++ (k, v) :: post)), ws⟩) =
          .error (.nonStringDependency k)) := by
  refine ⟨rfl, fun pkg ws => rfl, ?_⟩
  intro pkg ws pre k v post hpre hv
  simp only [get_dependency_names]
  exact collect_dependency_names_first_offender pre [] k v post hpre hv

/-- C8 witness: a table whose second entry is itself a table fails with
the schema error naming that entry, returning no set. -/
theorem get_dependency_names_all_or_nothing_witness :
    ([("fdio", Toml.string "0.2.0")].all (fun kv => kv.2.isString) = true) ∧
    (Toml.table []).isString = false ∧
    get_dependency_names (.ok ⟨none, some (.table
        [("fdio", Toml.string "0.2.0"), ("fidl", Toml.table []),
          ("futures", Toml.string "0.1.15")]), none⟩) =
      .error (.nonStringDependency "fidl") := by
  refine ⟨rfl, rfl, ?_⟩
  exact get_dependency_names_all_or_nothing.2.2 none none
    [("fdio", Toml.string "0.2.0")] "fidl" (Toml.table [])
    [("futures", Toml.string "0.1.15")] rfl rfl

/-- C9 counterexample: three concrete lines on which the claimed parsing
rule and the source disagree.  A line with two `=` (claimed: split once on
the first `=`, so the value would be `a=b`) is skipped because Rust
`split("=")` yields three parts; a line whose key carries leading
whitespace (claimed: keys are trimmed before matching) is skipped because
the source matches `parts[0]` untrimmed; and a value wrapped in doubled
quotes (claimed: one layer of surrounding quotes stripped, leaving
`"x"`) loses every surrounding quote because the source uses
`trim_matches('"')`. -/
theorem config_parse_divergences :
    (FuchsiaConfig.new "FUCHSIA_BUILD_DIR=a=b").fuchsia_build_dir = "" ∧
    (FuchsiaConfig.new "FUCHSIA_BUILD_DIR=a=b").fuchsia_build_dir ≠ "a=b" ∧
    (FuchsiaConfig.new " FUCHSIA_BUILD_DIR=x").fuchsia_build_dir = "" ∧
    (FuchsiaConfig.new " FUCHSIA_BUILD_DIR=x").fuchsia_build_dir ≠ "x" ∧
    (FuchsiaConfig.new "FUCHSIA_BUILD_DIR=\"\"x\"\"").fuchsia_build_dir = "x" ∧
    (FuchsiaConfig.new "FUCHSIA_BUILD_DIR=\"\"x\"\"").fuchsia_build_dir ≠ "\"x\"" := by
  exact ⟨rfl, by decide, rfl, by decide, rfl, by decide⟩

/-- C9 (amended): each line is processed independently and is split on
every `=`; only when that yields exactly two parts and the first part —
matched exactly, untrimmed — is one of the four known keys is the second
part assigned to the corresponding field, with all (not just one layer
of) surrounding quote characters stripped; every other line is silently
skipped, and no line can fail the parse (the parser is a total function).
The spec's example — one well-formed FUCHSIA_BUILD_DIR line plus one
malformed line without `=` — still yields `out/debug-x64`. -/
theorem config_line_parsing (c : FuchsiaConfig) (line : String) :
    ((lineParts line).length ≠ 2 → parse_config_line c line = c) ∧
    (∀ key value, lineParts line = [key, value] →
      parse_config_line c line =
        (if key = "FUCHSIA_BUILD_DIR" then
          { c with fuchsia_build_dir := trimMatches '"' value }
        else if key = "FUCHSIA_VARIANT" then
          { c with fuchsia_variant := trimMatches '"' value }
        else if key = "FUCHSIA_ARCH" then
          { c with fuchsia_arch := trimMatches '"' value }
        else if key = "ZIRCON_PROJECT" then
          { c with zircon_project := trimMatches '"' value }
        else c)) ∧
    (FuchsiaConfig.new "FUCHSIA_BUILD_DIR=\"out/debug-x64\"\nmalformed line" =
      { FuchsiaConfig.initial with fuchsia_build_dir := "out/debug-x64" }) := by
  refine ⟨?_, ?_, rfl⟩
  · intro hlen
    simp only [parse_config_line]
    split
    · rename_i key value hkv
      exact absurd (by rw [hkv]; rfl) hlen
    · rfl
  · intro key value hkv
    simp only [parse_config_line, hkv]

/-- C9 witness: a well-formed single-`=` line assigns its field. -/
theorem config_line_parsing_witness :
    (lineParts "FUCHSIA_ARCH=arm" = ["FUCHSIA_ARCH", "arm"]) ∧
    parse_config_line FuchsiaConfig.initial "FUCHSIA_ARCH=arm" =
      { FuchsiaConfig.initial with fuchsia_arch := "arm" } := by
  have h := (config_line_parsing FuchsiaConfig.initial "FUCHSIA_ARCH=arm").2.1
    "FUCHSIA_ARCH" "arm" rfl
  refine ⟨rfl, ?_⟩
  rw [h]
  rfl

/-- C3 witness: the derived paths at the demonstration tree `/r` with
HOME `/h` and the debug x64 target. -/
theorem derived_paths_from_root_witness :
    fuchsia_root fsDemo (some ["r"]) [] optsDebug = .ok ["r"] ∧
    (sysroot_path fsDemo (some ["r"]) [] optsDebug =
        .ok ["r", "out", "build-zircon", "build-user-x86-64", "sysroot"] ∧
      cross_root (some ["h"]) optsDebug =
        .ok ["h", ".fargo", "native_deps", "x64"] ∧
      pkg_config_path (some ["h"]) optsDebug =
        .ok ["h", ".fargo", "native_deps", "x64", "lib", "pkgconfig"]) := by
  refine ⟨rfl, ?_⟩
  have h := derived_paths_from_root fsDemo (some ["r"]) ["h"] [] optsDebug ["r"] rfl
  simpa using h

end Fargo


